import Mathlib

/-!
Verification of the delayed-auditory-feedback audio engine.

The repository contains three variants of the `SpeechProcessor` engine:

* `DafProc` models `src/daf-processor.js` — the variant with the
  gain / noise-reduction processing chain and threshold-triggered
  path rebuilds;
* `P5` models `src/unnamed/part_005` — the consolidated variant with
  device management, the 1e-6 s delay floor, and the bounded resume
  protocol;
* `P6` models `src/unnamed/part_006` — the variant with the
  zero-latency "direct mode" and the mode-switch rebuild logic.

Audio-node graphs are embedded as lists of edges (a `connect` call
`a.connect(b, out, in)` becomes the edge `⟨a, b, out, in⟩`); numeric
parameters (delay times in ms, gains, noise-reduction percentages)
are embedded as rationals; the engine's mutable fields become a state
record and each method becomes a state-transformer function.
-/

namespace DafProc

/-- The audio nodes allocated by `_createAudioNodes` in
`src/daf-processor.js`, plus the context destination. -/
inductive GNode where
  | source
  | inputGain
  | delayNode
  | outputGain
  | noiseGate
  | lowpassFilter
  | highpassFilter
  | compressor
  | channelSplitter
  | channelMerger
  | destination
deriving DecidableEq, Repr

/-- A Web Audio connection `src.connect(dst, outIdx, inIdx)`
(`outIdx`/`inIdx` default to 0 when omitted in the source). -/
structure Edge where
  src : GNode
  dst : GNode
  outIdx : Nat
  inIdx : Nat
deriving DecidableEq, Repr

/-- The fields of `this.config` that decide graph topology and the
delay parameter (`delayTime` in ms, `inputGain` linear,
`noiseReduction` percent). -/
structure Config where
  delayTime : ℚ
  inputGain : ℚ
  noiseReduction : ℚ
deriving DecidableEq, Repr

/-- `_connectDelayToOutput`: delay → splitter, splitter channel 0 to
merger inputs 0 and 1, merger → output gain → destination. -/
def connectDelayToOutput : List Edge :=
  [⟨GNode.delayNode, GNode.channelSplitter, 0, 0⟩,
   ⟨GNode.channelSplitter, GNode.channelMerger, 0, 0⟩,
   ⟨GNode.channelSplitter, GNode.channelMerger, 0, 1⟩,
   ⟨GNode.channelMerger, GNode.outputGain, 0, 0⟩,
   ⟨GNode.outputGain, GNode.destination, 0, 0⟩]

/-- The noise-reduction sub-chain of `_connectAudioNodes`:
input gain → high-pass → low-pass → noise gate → compressor → delay. -/
def noiseReductionChain : List Edge :=
  [⟨GNode.inputGain, GNode.highpassFilter, 0, 0⟩,
   ⟨GNode.highpassFilter, GNode.lowpassFilter, 0, 0⟩,
   ⟨GNode.lowpassFilter, GNode.noiseGate, 0, 0⟩,
   ⟨GNode.noiseGate, GNode.compressor, 0, 0⟩,
   ⟨GNode.compressor, GNode.delayNode, 0, 0⟩]

/-- `_connectAudioNodes` of `src/daf-processor.js`: the direct path
when `noiseReduction === 0 && inputGain === 1`, otherwise gain staging
with the noise-reduction chain included exactly when
`noiseReduction > 0`. -/
def connectAudioNodes (cfg : Config) : List Edge :=
  if cfg.noiseReduction = 0 ∧ cfg.inputGain = 1 then
    ⟨GNode.source, GNode.delayNode, 0, 0⟩ :: connectDelayToOutput
  else
    ⟨GNode.source, GNode.inputGain, 0, 0⟩ ::
      ((if 0 < cfg.noiseReduction then noiseReductionChain
        else [⟨GNode.inputGain, GNode.delayNode, 0, 0⟩]) ++ connectDelayToOutput)

/-- Engine state for `src/daf-processor.js`: `hasCtx` stands for
`this.audioContext !== null` (the context and the node references are
created and nulled together), `edges` is the set of live connections,
`appliedDelay` is the value last written to
`delayNode.delayTime` (seconds), `none` while the node is null. -/
structure EngineState where
  hasCtx : Bool
  edges : List Edge
  config : Config
  isAudioRunning : Bool
  appliedDelay : Option ℚ
deriving DecidableEq, Repr

/-- The constructor state: null context and nodes, default config
`{delayTime: 50, inputGain: 1, noiseReduction: 50}`. -/
def initState : EngineState :=
  { hasCtx := false
    edges := []
    config := { delayTime := 50, inputGain := 1, noiseReduction := 50 }
    isAudioRunning := false
    appliedDelay := none }

/-- `_rebuildAudioPath`: no-op without an active context/source,
otherwise disconnect everything and reconnect with current settings. -/
def rebuildAudioPath (s : EngineState) : EngineState :=
  if s.hasCtx then { s with edges := connectAudioNodes s.config } else s

/-- A successful `initializeAudio` (the success branch of `start`):
nodes created, configured (`delayTime.setValueAtTime(cfg.delayTime / 1000)`)
and connected, `isAudioRunning` set. -/
def stepStartOk (s : EngineState) : EngineState :=
  { hasCtx := true
    edges := connectAudioNodes s.config
    config := s.config
    isAudioRunning := true
    appliedDelay := some (s.config.delayTime / 1000) }

/-- `stop()`: disconnect all nodes, close and null the context, null
every node reference, clear `isAudioRunning`. -/
def stepStop (s : EngineState) : EngineState :=
  { hasCtx := false
    edges := []
    config := s.config
    isAudioRunning := false
    appliedDelay := none }

/-- `updateDelayTime(value)`: store the config value and, when the
delay node exists, apply `value / 1000` with no epsilon floor. -/
def stepUpdateDelayTime (v : ℚ) (s : EngineState) : EngineState :=
  let s' := { s with config := { s.config with delayTime := v } }
  if s.hasCtx then { s' with appliedDelay := some (v / 1000) } else s'

/-- `updateInputGain(value)`: store the config value and rebuild the
path only when crossing the gain = 1 bypass threshold
(`(previous === 1 && value > 1) || (previous > 1 && value === 1)`). -/
def stepUpdateInputGain (v : ℚ) (s : EngineState) : EngineState :=
  let prev := s.config.inputGain
  let s' := { s with config := { s.config with inputGain := v } }
  if s.hasCtx then
    (if (prev = 1 ∧ 1 < v) ∨ (1 < prev ∧ v = 1) then rebuildAudioPath s' else s')
  else s'

/-- `updateNoiseReduction(value)`: store the config value and rebuild
the path only when crossing the noise-reduction = 0 bypass threshold
(`(previous === 0 && value > 0) || (previous > 0 && value === 0)`). -/
def stepUpdateNoiseReduction (v : ℚ) (s : EngineState) : EngineState :=
  let prev := s.config.noiseReduction
  let s' := { s with config := { s.config with noiseReduction := v } }
  if s.hasCtx then
    (if (prev = 0 ∧ 0 < v) ∨ (0 < prev ∧ v = 0) then rebuildAudioPath s' else s')
  else s'

/-- The externally-triggered engine operations. -/
inductive Event where
  | startOk
  | stop
  | updateDelayTime (v : ℚ)
  | updateInputGain (v : ℚ)
  | updateNoiseReduction (v : ℚ)

/-- One engine operation run to completion. -/
def stepEvent : Event → EngineState → EngineState
  | Event.startOk => stepStartOk
  | Event.stop => stepStop
  | Event.updateDelayTime v => stepUpdateDelayTime v
  | Event.updateInputGain v => stepUpdateInputGain v
  | Event.updateNoiseReduction v => stepUpdateNoiseReduction v

/-- States reachable from the constructor state by complete engine
operations (the externally observable states). -/
inductive Reachable : EngineState → Prop
  | init : Reachable initState
  | step (e : Event) {s : EngineState} : Reachable s → Reachable (stepEvent e s)

/-- A reachable state refuting consistency with the current config:
start with defaults, set noise reduction to 0 (rebuilds to the direct
path), then lower the gain from 1 to 1/2 (no rebuild is triggered,
but a fresh build for the new config would use gain staging). -/
def gainDropState : EngineState :=
  stepEvent (Event.updateInputGain (1 / 2))
    (stepEvent (Event.updateNoiseReduction 0) (stepEvent Event.startOk initState))

/-- A reachable state in which `updateDelayTime(0)` applied a delay of
exactly 0 seconds to the delay node. -/
def zeroDelayState : EngineState :=
  stepEvent (Event.updateDelayTime 0) (stepEvent Event.startOk initState)

/-- The low-pass cutoff computed by `updateNoiseReduction`:
`value === 0 ? 20000 : 3000 / (value / 100)`. -/
def noiseReductionFrequency (v : ℚ) : ℚ :=
  if v = 0 then 20000 else 3000 / (v / 100)

end DafProc

namespace P5

/-- Possible states of a Web Audio `AudioContext`. -/
inductive CtxState where
  | running
  | suspended
  | closed
deriving DecidableEq, Repr

/-- The audio nodes allocated by `_createAudioNodes` in
`src/unnamed/part_005`, plus the context destination. -/
inductive GNode where
  | source
  | gainNode
  | delayNode
  | channelSplitter
  | channelMerger
  | destination
deriving DecidableEq, Repr

/-- A Web Audio connection `src.connect(dst, outIdx, inIdx)`. -/
structure Edge where
  src : GNode
  dst : GNode
  outIdx : Nat
  inIdx : Nat
deriving DecidableEq, Repr

/-- The `this.config` fields of `src/unnamed/part_005`
(`delayTime` in ms, unified `gain`). -/
structure Config where
  delayTime : ℚ
  gain : ℚ
deriving DecidableEq, Repr

/-- `minDelay` of `src/unnamed/part_005`: 1 microsecond, the epsilon
floor used instead of a zero delay. -/
def minDelay : ℚ := 1 / 1000000

/-- The delay value written in `_createAudioNodes`:
`Math.max(minDelay, this.config.delayTime / 1000)`. -/
def createNodesDelayValue (cfg : Config) : ℚ :=
  max minDelay (cfg.delayTime / 1000)

/-- The delay value written in `_configureAudioNodes`:
`cfg.delayTime <= 0 ? minDelay : cfg.delayTime / 1000`. -/
def configureDelayValue (cfg : Config) : ℚ :=
  if cfg.delayTime ≤ 0 then minDelay else cfg.delayTime / 1000

/-- The delay value written by `updateDelayTime(value)`:
`value <= 0 ? minDelay : value / 1000`. -/
def updateDelayApplied (v : ℚ) : ℚ :=
  if v ≤ 0 then minDelay else v / 1000

/-- `_connectAudioNodes` of `src/unnamed/part_005` (single fixed
topology): source → delay → splitter, splitter channel 0 to both
merger inputs, merger → gain → destination. -/
def connectAudioNodes : List Edge :=
  [⟨GNode.source, GNode.delayNode, 0, 0⟩,
   ⟨GNode.delayNode, GNode.channelSplitter, 0, 0⟩,
   ⟨GNode.channelSplitter, GNode.channelMerger, 0, 0⟩,
   ⟨GNode.channelSplitter, GNode.channelMerger, 0, 1⟩,
   ⟨GNode.channelMerger, GNode.gainNode, 0, 0⟩,
   ⟨GNode.gainNode, GNode.destination, 0, 0⟩]

/-- An audio-input device as returned by `enumerateDevices`. -/
structure Device where
  deviceId : String
  label : String
deriving DecidableEq, Repr

/-- Engine state for `src/unnamed/part_005`: `stream` stands for
`this.audioStream !== null`, `ctx` for the audio context and its
state (`none` = null), `nodes` for non-null node references. -/
structure EngineState where
  stream : Bool
  ctx : Option CtxState
  nodes : Bool
  edges : List Edge
  config : Config
  isAudioRunning : Bool
  audioSuspendedByBackground : Bool
  resumeAttempts : Nat
  micAccessGranted : Bool
  status : Option String
  selectedDeviceId : Option String
deriving DecidableEq, Repr

/-- The constructor state of `src/unnamed/part_005`:
everything null, config `{delayTime: 50, gain: 1}`. -/
def initState : EngineState :=
  { stream := false
    ctx := none
    nodes := false
    edges := []
    config := { delayTime := 50, gain := 1 }
    isAudioRunning := false
    audioSuspendedByBackground := false
    resumeAttempts := 0
    micAccessGranted := false
    status := none
    selectedDeviceId := none }

/-- `_stopAudioStream`: stop the tracks and null the stream when one
is held, otherwise do nothing. -/
def stopAudioStream (s : EngineState) : EngineState :=
  if s.stream then { s with stream := false } else s

/-- `_disconnectAllNodes`: disconnect every non-null node (null
entries are skipped by the `typeof node.disconnect` test). -/
def disconnectAllNodes (s : EngineState) : EngineState :=
  { s with edges := [] }

/-- Whether `_closeAudioContext` actually invokes
`audioContext.close()`: only when a context exists and its state is
not already `'closed'` (the close of an already-closed context is
skipped). -/
def closeIsCalled (s : EngineState) : Bool :=
  match s.ctx with
  | some CtxState.closed => false
  | some _ => true
  | none => false

/-- `_closeAudioContext`: with no context it does nothing; otherwise
it disconnects all nodes, closes the context unless already closed,
and always nulls the context reference. -/
def closeAudioContext (s : EngineState) : EngineState :=
  match s.ctx with
  | none => s
  | some _ => { (disconnectAllNodes s) with ctx := none }

/-- `_resetAudioState`: null the context and every node reference,
clear the running / background-suspension flags, reset the resume
counter. -/
def resetAudioState (s : EngineState) : EngineState :=
  { s with ctx := none
           nodes := false
           edges := []
           isAudioRunning := false
           audioSuspendedByBackground := false
           resumeAttempts := 0 }

/-- `stop()` of `src/unnamed/part_005`: stop the stream, close the
context, reset audio state, drop mic access, report the stopped
status. -/
def stop (s : EngineState) : EngineState :=
  let s1 := stopAudioStream s
  let s2 := closeAudioContext s1
  let s3 := resetAudioState s2
  { s3 with micAccessGranted := false
            status := some "Speech Processing Stopped" }

/-- `this.maxResumeAttempts` = 5. -/
def maxResumeAttempts : Nat := 5

/-- What a call to `_attemptResumeAudio` does besides mutating the
engine: return false, return true, or schedule a retry after
`delayMs` milliseconds via `setTimeout`. -/
inductive AttemptOutcome where
  | returnedFalse
  | returnedTrue
  | scheduled (delayMs : Nat)
deriving DecidableEq, Repr

/-- `_attemptResumeAudio` of `src/unnamed/part_005`. `resumeOk` is
whether the awaited `audioContext.resume()` succeeds. The guard
returns false when the context is null, not suspended, or the
counter has reached the maximum; otherwise the counter is
incremented, success resets it to 0, and failure schedules a retry
after `Math.pow(2, resumeAttempts) * 100` ms while attempts remain,
else reports the tap-to-resume status. -/
def attemptResumeAudio (resumeOk : Bool) (s : EngineState) :
    AttemptOutcome × EngineState :=
  if s.ctx = none ∨ s.ctx ≠ some CtxState.suspended ∨
      maxResumeAttempts ≤ s.resumeAttempts then
    (AttemptOutcome.returnedFalse, s)
  else
    let s1 := { s with resumeAttempts := s.resumeAttempts + 1 }
    if resumeOk then
      (AttemptOutcome.returnedTrue,
       { s1 with ctx := some CtxState.running, resumeAttempts := 0 })
    else
      if s1.resumeAttempts < maxResumeAttempts then
        (AttemptOutcome.scheduled (2 ^ s1.resumeAttempts * 100), s1)
      else
        (AttemptOutcome.returnedFalse,
         { s1 with status := some "Tap to resume audio" })

/-- Run up to `n` consecutive failing resume attempts, following the
`setTimeout` retry chain while one is scheduled, and collect the
scheduled backoff delays in order. -/
def runFailures : Nat → EngineState → List Nat × EngineState
  | 0, s => ([], s)
  | n + 1, s =>
    match attemptResumeAudio false s with
    | (AttemptOutcome.scheduled d, s') =>
      let r := runFailures n s'
      (d :: r.1, r.2)
    | (_, s') => ([], s')

/-- A running engine whose context was just suspended by the
platform, before any resume attempt. -/
def suspendedState : EngineState :=
  { initState with
      stream := true
      ctx := some CtxState.suspended
      nodes := true
      edges := connectAudioNodes
      isAudioRunning := true
      micAccessGranted := true }

/-- The ASCII lower-casing performed by `label.toLowerCase()` on the
device labels involved. -/
def lowerChar (c : Char) : Char :=
  if 65 ≤ c.toNat ∧ c.toNat ≤ 90 then Char.ofNat (c.toNat + 32) else c

/-- `toLowerCase` over a whole string (as a character list). -/
def lowerStr (s : List Char) : List Char := s.map lowerChar

/-- JavaScript `haystack.includes(needle)`: does `needle` occur as a
contiguous substring of `haystack`? -/
def containsSub (n : List Char) : List Char → Bool
  | [] => n.isEmpty
  | c :: t => n.isPrefixOf (c :: t) || containsSub n t

/-- The keyword list tested by `_isHeadphoneMic` (and by the
identical inline predicate in `enumerateAudioDevices`). -/
def headphoneKeywords : List String :=
  ["headphone", "headset", "earphone", "airpod", "bluetooth"]

/-- `_isHeadphoneMic(label)` of `src/unnamed/part_005`: false for an
empty/missing label, otherwise a case-insensitive keyword search. -/
def isHeadphoneMic (label : String) : Bool :=
  if label = "" then false
  else
    let l := lowerStr label.toList
    containsSub "headphone".toList l ||
    containsSub "headset".toList l ||
    containsSub "earphone".toList l ||
    containsSub "airpod".toList l ||
    containsSub "bluetooth".toList l

/-- The `availableDevices.find(...)` step of `enumerateAudioDevices`:
the first device whose label matches the headset keyword list. -/
def findHeadphoneMic (devices : List Device) : Option Device :=
  devices.find? (fun d => isHeadphoneMic d.label)

/-- The auto-selection step of `enumerateAudioDevices`: when a
headset-classified device is found and is not already the selected
one, its id becomes the selected device id; otherwise the selection
is unchanged. -/
def autoSelectDevice (selected : Option String) (devices : List Device) :
    Option String :=
  match findHeadphoneMic devices with
  | some hp =>
    if selected = none ∨ selected ≠ some hp.deviceId then some hp.deviceId
    else selected
  | none => selected

end P5

namespace P6

/-- The latency modes of the `src/unnamed/part_006` engine. -/
inductive Mode where
  | direct
  | standard
deriving DecidableEq, Repr

/-- The audio nodes of `src/unnamed/part_006`: the persistent
`this.audioNodes` entries, the splitter/merger pair freshly created
by `_setupDirectMode` (`directSplitter`/`directMerger`, stored in
`this.directOutput`), and the context destination. -/
inductive GNode where
  | source
  | inputGain
  | delayNode
  | outputGain
  | noiseGate
  | lowpassFilter
  | highpassFilter
  | compressor
  | channelSplitter
  | channelMerger
  | directSplitter
  | directMerger
  | destination
deriving DecidableEq, Repr

/-- A Web Audio connection `src.connect(dst, outIdx, inIdx)`. -/
structure Edge where
  src : GNode
  dst : GNode
  outIdx : Nat
  inIdx : Nat
deriving DecidableEq, Repr

/-- The topology-relevant `this.config` fields of
`src/unnamed/part_006`. -/
structure Config where
  delayTime : ℚ
  inputGain : ℚ
  noiseReduction : ℚ
  useZeroLatencyMode : Bool
deriving DecidableEq, Repr

/-- The latency-mode decision made in `initializeAudio` and
`_rebuildAudioPath`:
`this.config.useZeroLatencyMode && this.config.delayTime <= 5`. -/
def selectLatencyMode (cfg : Config) : Mode :=
  if cfg.useZeroLatencyMode = true ∧ cfg.delayTime ≤ 5 then Mode.direct
  else Mode.standard

/-- `_connectDelayToOutput` of `src/unnamed/part_006`. -/
def connectDelayToOutput : List Edge :=
  [⟨GNode.delayNode, GNode.channelSplitter, 0, 0⟩,
   ⟨GNode.channelSplitter, GNode.channelMerger, 0, 0⟩,
   ⟨GNode.channelSplitter, GNode.channelMerger, 0, 1⟩,
   ⟨GNode.channelMerger, GNode.outputGain, 0, 0⟩,
   ⟨GNode.outputGain, GNode.destination, 0, 0⟩]

/-- The noise-reduction sub-chain of `_connectAudioNodes`. -/
def noiseReductionChain : List Edge :=
  [⟨GNode.inputGain, GNode.highpassFilter, 0, 0⟩,
   ⟨GNode.highpassFilter, GNode.lowpassFilter, 0, 0⟩,
   ⟨GNode.lowpassFilter, GNode.noiseGate, 0, 0⟩,
   ⟨GNode.noiseGate, GNode.compressor, 0, 0⟩,
   ⟨GNode.compressor, GNode.delayNode, 0, 0⟩]

/-- `_connectAudioNodes` of `src/unnamed/part_006`: the ultra-low
latency bypass when `delayTime < 20 || (noiseReduction === 0 &&
inputGain === 1)`, otherwise gain staging with the noise-reduction
chain included exactly when `noiseReduction > 0`. -/
def connectAudioNodes (cfg : Config) : List Edge :=
  if cfg.delayTime < 20 ∨ (cfg.noiseReduction = 0 ∧ cfg.inputGain = 1) then
    ⟨GNode.source, GNode.delayNode, 0, 0⟩ :: connectDelayToOutput
  else
    ⟨GNode.source, GNode.inputGain, 0, 0⟩ ::
      ((if 0 < cfg.noiseReduction then noiseReductionChain
        else [⟨GNode.inputGain, GNode.delayNode, 0, 0⟩]) ++ connectDelayToOutput)

/-- The connections wired by `_setupDirectMode`: for `delayTime <= 0`
a pass-through with stereo fan-out straight to the destination; for a
small positive delay, source → delay → fresh splitter/merger →
output gain → destination. -/
def setupDirectModeEdges (cfg : Config) : List Edge :=
  if cfg.delayTime ≤ 0 then
    [⟨GNode.source, GNode.directSplitter, 0, 0⟩,
     ⟨GNode.directSplitter, GNode.directMerger, 0, 0⟩,
     ⟨GNode.directSplitter, GNode.directMerger, 0, 1⟩,
     ⟨GNode.directMerger, GNode.destination, 0, 0⟩]
  else
    [⟨GNode.source, GNode.delayNode, 0, 0⟩,
     ⟨GNode.delayNode, GNode.directSplitter, 0, 0⟩,
     ⟨GNode.directSplitter, GNode.directMerger, 0, 0⟩,
     ⟨GNode.directSplitter, GNode.directMerger, 0, 1⟩,
     ⟨GNode.directMerger, GNode.outputGain, 0, 0⟩,
     ⟨GNode.outputGain, GNode.destination, 0, 0⟩]

/-- Engine state for `src/unnamed/part_006`: `sourceNode` stands for
`this.audioNodes.source !== null`, `directOutput` for
`this.directOutput !== null`, `rebuildCount` counts completed
teardown-and-build sequences (for the rebuild-exactly-once
property). -/
structure EngineState where
  hasCtx : Bool
  sourceNode : Bool
  edges : List Edge
  config : Config
  directModeEnabled : Bool
  directOutput : Bool
  rebuildCount : Nat
  appliedDelay : Option ℚ
deriving DecidableEq, Repr

/-- `_setupDirectMode`: disconnect every existing `audioNodes` entry,
then wire the direct path for the current config (one teardown
followed by one build). -/
def setupDirectMode (s : EngineState) : EngineState :=
  { s with directModeEnabled := true
           edges := setupDirectModeEdges s.config
           directOutput := true
           rebuildCount := s.rebuildCount + 1 }

/-- `_rebuildAudioPath` of `src/unnamed/part_006`: no-op without an
active context and source; otherwise disconnect everything (including
a live `directOutput`) and rebuild in the mode selected for the
current config. -/
def rebuildAudioPath (s : EngineState) : EngineState :=
  if s.hasCtx = false ∨ s.sourceNode = false then s
  else
    let s1 := { s with edges := [], directOutput := false }
    if s1.config.useZeroLatencyMode = true ∧ s1.config.delayTime ≤ 5 then
      setupDirectMode s1
    else
      let s2 := { s1 with edges := connectAudioNodes s1.config
                          rebuildCount := s1.rebuildCount + 1 }
      if s2.directModeEnabled = true then { s2 with directModeEnabled := false }
      else s2

/-- The graph a fresh `initializeAudio` wires for `cfg`: the direct
path when `useZeroLatencyMode && delayTime <= 5`, else
`_connectAudioNodes`. -/
def initializeAudioBuild (cfg : Config) : List Edge :=
  if cfg.useZeroLatencyMode = true ∧ cfg.delayTime ≤ 5 then
    setupDirectModeEdges cfg
  else connectAudioNodes cfg

/-- `updateDelayTime(value)` of `src/unnamed/part_006`: store the
value, apply `value <= 0 ? 0.00001 : value / 1000` to the delay node,
and when crossing the 5 ms low-latency boundary (with
`useZeroLatencyMode` on) switch modes: into direct via
`_setupDirectMode`, out of direct via `_rebuildAudioPath`. -/
def updateDelayTime (v : ℚ) (s : EngineState) : EngineState :=
  let prev := s.config.delayTime
  let s0 := { s with config := { s.config with delayTime := v } }
  if s0.hasCtx = false then s0
  else
    let s1 := { s0 with
      appliedDelay := some (if v ≤ 0 then 1 / 100000 else v / 1000) }
    if s1.config.useZeroLatencyMode = true ∧ ¬ ((prev ≤ 5) ↔ (v ≤ 5)) then
      (if v ≤ 5 then setupDirectMode s1
       else rebuildAudioPath { s1 with directModeEnabled := false })
    else s1

/-- A running engine built fresh for
`{delayTime: 100, inputGain: 1, noiseReduction: 50,
useZeroLatencyMode: true}` (standard mode, no rebuild yet). -/
def runningAt100 : EngineState :=
  { hasCtx := true
    sourceNode := true
    edges := initializeAudioBuild ⟨100, 1, 50, true⟩
    config := ⟨100, 1, 50, true⟩
    directModeEnabled := false
    directOutput := false
    rebuildCount := 0
    appliedDelay := some (100 / 1000) }

end P6

/-! ## Helper lemmas -/

/-- `containsSub` decides the contiguous-substring relation, i.e. it
agrees with JavaScript `String.prototype.includes`. -/
theorem containsSub_eq_true_iff (n : List Char) :
    ∀ h : List Char, P5.containsSub n h = true ↔ n <:+: h := by
  intro h
  induction h with
  | nil => simp [P5.containsSub, List.isEmpty_iff, List.infix_nil]
  | cons c t ih =>
    simp [P5.containsSub, List.isPrefixOf_iff_prefix, ih, List.infix_cons_iff]

/-- `stepUpdateDelayTime` never changes the connection set. -/
theorem stepUpdateDelayTime_edges (v : ℚ) (t : DafProc.EngineState) :
    (DafProc.stepUpdateDelayTime v t).edges = t.edges := by
  unfold DafProc.stepUpdateDelayTime
  split <;> rfl

/-- `stepUpdateInputGain` leaves the connection set unchanged or
replaces it by a complete build. -/
theorem stepUpdateInputGain_edges (v : ℚ) (t : DafProc.EngineState) :
    (DafProc.stepUpdateInputGain v t).edges = t.edges ∨
    ∃ cfg, (DafProc.stepUpdateInputGain v t).edges =
      DafProc.connectAudioNodes cfg := by
  unfold DafProc.stepUpdateInputGain DafProc.rebuildAudioPath
  dsimp only
  split_ifs <;> first | exact Or.inl rfl | exact Or.inr ⟨_, rfl⟩

/-- `stepUpdateNoiseReduction` leaves the connection set unchanged or
replaces it by a complete build. -/
theorem stepUpdateNoiseReduction_edges (v : ℚ) (t : DafProc.EngineState) :
    (DafProc.stepUpdateNoiseReduction v t).edges = t.edges ∨
    ∃ cfg, (DafProc.stepUpdateNoiseReduction v t).edges =
      DafProc.connectAudioNodes cfg := by
  unfold DafProc.stepUpdateNoiseReduction DafProc.rebuildAudioPath
  dsimp only
  split_ifs <;> first | exact Or.inl rfl | exact Or.inr ⟨_, rfl⟩

/-! ## C1 -/

/-- C1 counterexample: the claim "the node set is either empty or
fully connected consistently with the *current* ProcessingConfig" is
false on `src/daf-processor.js`. The reachable state obtained by
start → `updateNoiseReduction(0)` → `updateInputGain(1/2)` has a
non-empty graph (the gain/noise-reduction bypass path) that differs
from the build `_connectAudioNodes` would produce for its current
config, because lowering the gain from 1 to 1/2 does not trigger a
rebuild. -/
theorem nodeGraph_current_config_cex :
    DafProc.Reachable DafProc.gainDropState ∧
    DafProc.gainDropState.isAudioRunning = true ∧
    DafProc.gainDropState.edges ≠ [] ∧
    DafProc.gainDropState.edges ≠
      DafProc.connectAudioNodes DafProc.gainDropState.config := by
  refine ⟨DafProc.Reachable.step _ (DafProc.Reachable.step _
    (DafProc.Reachable.step _ DafProc.Reachable.init)), ?_, ?_, ?_⟩
  all_goals
    norm_num [DafProc.gainDropState, DafProc.stepEvent, DafProc.initState,
      DafProc.stepStartOk, DafProc.stepUpdateNoiseReduction,
      DafProc.stepUpdateInputGain, DafProc.rebuildAudioPath,
      DafProc.connectAudioNodes, DafProc.connectDelayToOutput,
      DafProc.noiseReductionChain]
  all_goals decide

/-- C1 (amended): in every reachable engine state the node graph is
either entirely empty or a complete `_connectAudioNodes` build for
some configuration — never a partially-wired graph with a
disconnected middle node. (Consistency with the *current* config can
fail, per the counterexample.) -/
theorem nodeGraph_complete_or_empty (s : DafProc.EngineState)
    (h : DafProc.Reachable s) :
    s.edges = [] ∨
    ∃ cfg : DafProc.Config, s.edges = DafProc.connectAudioNodes cfg := by
  induction h with
  | init => exact Or.inl rfl
  | step e hr ih =>
    cases e with
    | startOk => exact Or.inr ⟨_, rfl⟩
    | stop => exact Or.inl rfl
    | updateDelayTime v =>
      simp only [DafProc.stepEvent, stepUpdateDelayTime_edges]
      exact ih
    | updateInputGain v =>
      simp only [DafProc.stepEvent]
      rcases stepUpdateInputGain_edges v _ with hE | hE
      · rw [hE]; exact ih
      · exact Or.inr ⟨_, hE.choose_spec⟩
    | updateNoiseReduction v =>
      simp only [DafProc.stepEvent]
      rcases stepUpdateNoiseReduction_edges v _ with hE | hE
      · rw [hE]; exact ih
      · exact Or.inr ⟨_, hE.choose_spec⟩

/-- C1 witness: the amended invariant instantiated at the state
reached by a successful start. -/
theorem nodeGraph_complete_or_empty_witness :
    (DafProc.stepEvent DafProc.Event.startOk DafProc.initState).edges = [] ∨
    ∃ cfg, (DafProc.stepEvent DafProc.Event.startOk DafProc.initState).edges =
      DafProc.connectAudioNodes cfg :=
  nodeGraph_complete_or_empty _
    (DafProc.Reachable.step DafProc.Event.startOk DafProc.Reachable.init)

/-! ## C2 -/

/-- C2 counterexample: on `src/daf-processor.js`, `updateDelayTime(0)`
applies `0 / 1000 = 0` seconds to the delay node with no epsilon
floor, so the applied delay-time parameter is exactly 0 in a
reachable state, below the claimed 1e-6 floor. -/
theorem delayFloor_cex :
    DafProc.Reachable DafProc.zeroDelayState ∧
    DafProc.zeroDelayState.appliedDelay = some 0 ∧
    ¬ ((1 : ℚ) / 1000000 ≤ 0) := by
  refine ⟨DafProc.Reachable.step _
    (DafProc.Reachable.step _ DafProc.Reachable.init), ?_, by norm_num⟩
  norm_num [DafProc.zeroDelayState, DafProc.stepEvent, DafProc.initState,
    DafProc.stepStartOk, DafProc.stepUpdateDelayTime]

/-- C2 (amended): the epsilon floor holds in the consolidated engine
`src/unnamed/part_005`: `updateDelayTime` with any input ≤ 0 applies
exactly the 1e-6 s `minDelay`, every node creation applies at least
`minDelay`, `_configureAudioNodes` applies exactly `minDelay` when
`delayTime ≤ 0`, and `minDelay` is positive. The `src/daf-processor.js`
variant lacks the floor (see the counterexample). -/
theorem delayFloor_p5 :
    (∀ v : ℚ, v ≤ 0 → P5.updateDelayApplied v = P5.minDelay) ∧
    (∀ cfg : P5.Config, P5.minDelay ≤ P5.createNodesDelayValue cfg) ∧
    (∀ cfg : P5.Config, cfg.delayTime ≤ 0 →
      P5.configureDelayValue cfg = P5.minDelay) ∧
    0 < P5.minDelay := by
  refine ⟨?_, ?_, ?_, by norm_num [P5.minDelay]⟩
  · intro v hv; simp [P5.updateDelayApplied, hv]
  · intro cfg; exact le_max_left _ _
  · intro cfg hc; simp [P5.configureDelayValue, hc]

/-- C2 witness: the floor theorem instantiated at input 0 and at a
config with `delayTime = 0`. -/
theorem delayFloor_p5_witness :
    ((0 : ℚ) ≤ 0 ∧ P5.updateDelayApplied 0 = P5.minDelay) ∧
    ((P5.Config.mk 0 1).delayTime ≤ 0 ∧
      P5.configureDelayValue (P5.Config.mk 0 1) = P5.minDelay) :=
  ⟨⟨le_refl 0, delayFloor_p5.1 0 (le_refl 0)⟩,
   ⟨le_refl 0, delayFloor_p5.2.2.1 (P5.Config.mk 0 1) (le_refl 0)⟩⟩

/-! ## C3 -/

/-- C3: `stop()` of `src/unnamed/part_005` is idempotent and safe on a
never-started engine: a second `stop` is a no-op (and in particular
never calls `close()` on the already-closed-and-nulled context), and
after any `stop` the engine is idle — not running, context null, node
references null, no connections. On the never-started `initState` the
close call is skipped as well. -/
theorem stop_idempotent_idle (s : P5.EngineState) :
    P5.stop (P5.stop s) = P5.stop s ∧
    (P5.stop s).isAudioRunning = false ∧
    (P5.stop s).ctx = none ∧
    (P5.stop s).nodes = false ∧
    (P5.stop s).edges = [] ∧
    P5.closeIsCalled (P5.stop s) = false ∧
    P5.closeIsCalled P5.initState = false := by
  unfold P5.stop P5.stopAudioStream P5.closeAudioContext
    P5.disconnectAllNodes P5.resetAudioState P5.closeIsCalled P5.initState
  cases hs : s.stream <;> cases hc : s.ctx <;> simp [hs, hc]

/-! ## C4 -/

/-- C4 counterexample: simulating consecutive resume failures from a
suspended context, the backoff delays actually scheduled are not the
claimed `[100, 200, 400, 800, 1600]` (the code computes
`2^attempts * 100` after incrementing, so the first scheduled retry
waits 200 ms and only four retries are ever scheduled). -/
theorem resume_backoff_cex :
    (P5.runFailures 6 P5.suspendedState).1 ≠ [100, 200, 400, 800, 1600] := by
  decide

/-- C4 (amended): with every resume failing, the protocol performs 5
attempts in total — the initial one plus exactly 4 scheduled retries
with backoff delays `[200, 400, 800, 1600]` ms — then surfaces the
"Tap to resume audio" status and stops: a further call returns false
and changes nothing. The counter ends at 5, is not reset by failures,
and is reset to 0 exactly by a successful resume. -/
theorem resume_backoff :
    (P5.runFailures 6 P5.suspendedState).1 = [200, 400, 800, 1600] ∧
    (P5.runFailures 6 P5.suspendedState).2.resumeAttempts = 5 ∧
    (P5.runFailures 6 P5.suspendedState).2.status =
      some "Tap to resume audio" ∧
    P5.attemptResumeAudio false (P5.runFailures 6 P5.suspendedState).2 =
      (P5.AttemptOutcome.returnedFalse, (P5.runFailures 6 P5.suspendedState).2) ∧
    (P5.attemptResumeAudio false
      { P5.suspendedState with resumeAttempts := 2 }).2.resumeAttempts = 3 ∧
    (P5.attemptResumeAudio true
      { P5.suspendedState with resumeAttempts := 3 }).2.resumeAttempts = 0 := by
  decide


/-! ## C5 -/

/-- C5 counterexample: the claim "for every other config the standard
mode is chosen, which inserts gain staging and (when noise reduction
is enabled) the high-pass → low-pass → noise-gate → compressor
sub-chain" is false on `src/unnamed/part_006`: for
`{delayTime: 10, inputGain: 2, noiseReduction: 50,
useZeroLatencyMode: true}` the standard mode is chosen (10 > 5), yet
`_connectAudioNodes` takes its own `delayTime < 20` bypass and wires
neither the input-gain stage nor the noise-reduction chain. Moreover
the direct-mode path for a small positive delay still contains the
output gain node, contradicting "every gain node excluded". -/
theorem latencyMode_cex :
    P6.selectLatencyMode (P6.Config.mk 10 2 50 true) = P6.Mode.standard ∧
    (0 : ℚ) < (P6.Config.mk 10 2 50 true).noiseReduction ∧
    P6.Edge.mk P6.GNode.source P6.GNode.inputGain 0 0 ∉
      P6.connectAudioNodes (P6.Config.mk 10 2 50 true) ∧
    P6.Edge.mk P6.GNode.noiseGate P6.GNode.compressor 0 0 ∉
      P6.connectAudioNodes (P6.Config.mk 10 2 50 true) ∧
    P6.Edge.mk P6.GNode.directMerger P6.GNode.outputGain 0 0 ∈
      P6.setupDirectModeEdges (P6.Config.mk 2 1 50 true) := by
  decide

/-- C5 (amended): the latency-mode rule of `src/unnamed/part_006`:
direct mode is selected exactly when `useZeroLatencyMode` is on and
`delayTime ≤ 5`; in standard mode, `_connectAudioNodes` wires the
input-gain stage exactly when its own bypass condition
(`delayTime < 20`, or `noiseReduction = 0` with `inputGain = 1`)
fails, and the noise-reduction sub-chain exactly when additionally
`noiseReduction > 0`. -/
theorem latencyMode_rule (cfg : P6.Config) :
    (P6.selectLatencyMode cfg = P6.Mode.direct ↔
      (cfg.useZeroLatencyMode = true ∧ cfg.delayTime ≤ 5)) ∧
    (P6.Edge.mk P6.GNode.source P6.GNode.inputGain 0 0 ∈
        P6.connectAudioNodes cfg ↔
      ¬ (cfg.delayTime < 20 ∨ (cfg.noiseReduction = 0 ∧ cfg.inputGain = 1))) ∧
    (P6.Edge.mk P6.GNode.noiseGate P6.GNode.compressor 0 0 ∈
        P6.connectAudioNodes cfg ↔
      (¬ (cfg.delayTime < 20 ∨ (cfg.noiseReduction = 0 ∧ cfg.inputGain = 1)) ∧
        0 < cfg.noiseReduction)) := by
  refine ⟨?_, ?_, ?_⟩
  · unfold P6.selectLatencyMode
    split_ifs with h <;> simp [h]
  · unfold P6.connectAudioNodes
    split_ifs with h h' <;>
      simp [*, P6.connectDelayToOutput, P6.noiseReductionChain]
  · unfold P6.connectAudioNodes
    split_ifs with h h' <;>
      simp [*, P6.connectDelayToOutput, P6.noiseReductionChain]

/-! ## C6 -/

/-- C6: on `src/unnamed/part_006`, updating `delayTime` from 100 to 2
while running (with `useZeroLatencyMode` on) performs exactly one
teardown-and-build, and the resulting graph equals the graph a fresh
`initializeAudio` would wire for the updated config — the direct-mode
graph. -/
theorem modeSwitch_single_rebuild :
    (P6.updateDelayTime 2 P6.runningAt100).rebuildCount =
      P6.runningAt100.rebuildCount + 1 ∧
    (P6.updateDelayTime 2 P6.runningAt100).edges =
      P6.initializeAudioBuild (P6.updateDelayTime 2 P6.runningAt100).config ∧
    P6.selectLatencyMode (P6.updateDelayTime 2 P6.runningAt100).config =
      P6.Mode.direct ∧
    (P6.updateDelayTime 2 P6.runningAt100).directModeEnabled = true := by
  norm_num [P6.updateDelayTime, P6.runningAt100, P6.setupDirectMode,
    P6.setupDirectModeEdges, P6.initializeAudioBuild, P6.selectLatencyMode,
    P6.rebuildAudioPath, P6.connectAudioNodes, P6.connectDelayToOutput]

/-! ## C7 -/

/-- C7: every successful graph build fans the mono capture channel out
to both output ears: in `src/daf-processor.js` every
`_connectAudioNodes` build (both the bypass and the standard path, via
`_connectDelayToOutput`) contains the splitter-channel-0 connections
to merger inputs 0 and 1, and so does the fixed build of
`src/unnamed/part_005`. -/
theorem stereo_fanout (cfg : DafProc.Config) :
    DafProc.Edge.mk DafProc.GNode.channelSplitter DafProc.GNode.channelMerger
        0 0 ∈ DafProc.connectAudioNodes cfg ∧
    DafProc.Edge.mk DafProc.GNode.channelSplitter DafProc.GNode.channelMerger
        0 1 ∈ DafProc.connectAudioNodes cfg ∧
    P5.Edge.mk P5.GNode.channelSplitter P5.GNode.channelMerger 0 0 ∈
      P5.connectAudioNodes ∧
    P5.Edge.mk P5.GNode.channelSplitter P5.GNode.channelMerger 0 1 ∈
      P5.connectAudioNodes := by
  refine ⟨?_, ?_, by decide, by decide⟩ <;>
    · unfold DafProc.connectAudioNodes
      split_ifs <;> decide

/-! ## C8 -/

/-- C8 counterexample: the claim "the applied cutoff never exceeds the
20000 Hz ceiling" is false: `updateNoiseReduction(1)` computes
`3000 / (1 / 100) = 300000` Hz, far above the ceiling (the code only
substitutes 20000 at exactly 0%, it never clamps). -/
theorem noiseReduction_cutoff_cex :
    (0 : ℚ) < 1 ∧
    DafProc.noiseReductionFrequency 1 = 300000 ∧
    ¬ (DafProc.noiseReductionFrequency 1 ≤ 20000) := by
  norm_num [DafProc.noiseReductionFrequency]

/-- C8 (amended): for every percentage > 0 the applied low-pass cutoff
equals `3000 / (percent / 100)` (i.e. `300000 / percent`), with no
clamping — it stays within the 20000 Hz ceiling exactly when
`percent ≥ 15`; at percent = 0 the cutoff is set to 20000 Hz. -/
theorem noiseReduction_cutoff (v : ℚ) (hv : 0 < v) :
    DafProc.noiseReductionFrequency v = 3000 / (v / 100) ∧
    DafProc.noiseReductionFrequency v = 300000 / v ∧
    (DafProc.noiseReductionFrequency v ≤ 20000 ↔ 15 ≤ v) ∧
    DafProc.noiseReductionFrequency 0 = 20000 := by
  have hne : v ≠ 0 := ne_of_gt hv
  have h1 : DafProc.noiseReductionFrequency v = 300000 / v := by
    rw [DafProc.noiseReductionFrequency, if_neg hne]
    field_simp
    ring
  refine ⟨by rw [DafProc.noiseReductionFrequency, if_neg hne], h1, ?_,
    by norm_num [DafProc.noiseReductionFrequency]⟩
  rw [h1, div_le_iff₀ hv]
  constructor <;> intro h <;> linarith

/-- C8 witness: the cutoff law instantiated at 20%. -/
theorem noiseReduction_cutoff_witness :
    (0 : ℚ) < 20 ∧
    DafProc.noiseReductionFrequency 20 = 300000 / 20 ∧
    (DafProc.noiseReductionFrequency 20 ≤ 20000 ↔ (15 : ℚ) ≤ 20) :=
  ⟨by norm_num, (noiseReduction_cutoff 20 (by norm_num)).2.1,
    (noiseReduction_cutoff 20 (by norm_num)).2.2.1⟩

/-! ## C9 -/

/-- C9: `_isHeadphoneMic` returns true exactly when the label
contains, case-insensitively, one of the headset-style keywords
(headphone / headset / earphone / airpod / bluetooth), and false
otherwise — in particular for the empty label; and on a registry with
a "Bluetooth Headset Mic" next to a "Built-in Microphone" the
enumeration's auto-selection picks the headset device's id. -/
theorem headset_classification :
    (∀ label : String, P5.isHeadphoneMic label = true ↔
      ∃ kw ∈ P5.headphoneKeywords, kw.toList <:+: P5.lowerStr label.toList) ∧
    P5.isHeadphoneMic "" = false ∧
    P5.isHeadphoneMic "Bluetooth Headset Mic" = true ∧
    P5.isHeadphoneMic "Built-in Microphone" = false ∧
    P5.autoSelectDevice none
      [P5.Device.mk "bt-headset-id" "Bluetooth Headset Mic",
       P5.Device.mk "builtin-id" "Built-in Microphone"] =
      some "bt-headset-id" := by
  refine ⟨?_, by decide, by decide, by decide, by decide⟩
  intro label
  by_cases hl : label = ""
  · subst hl
    simp only [P5.isHeadphoneMic, if_pos rfl, P5.headphoneKeywords]
    constructor
    · intro h; exact absurd h (by decide)
    · intro h
      rcases h with ⟨kw, hkw, hinf⟩
      have hnil : P5.lowerStr "".toList = [] := by decide
      rw [hnil, List.infix_nil] at hinf
      fin_cases hkw <;> simp_all
  · simp only [P5.isHeadphoneMic, if_neg hl, P5.headphoneKeywords,
      Bool.or_eq_true, containsSub_eq_true_iff]
    simp [List.exists_mem_cons_iff, or_assoc]

/-! ## C10 -/

/-- C10: whenever the `_attemptResumeAudio` guard fails — no audio
context, context not in the `'suspended'` state, or the attempt
counter already at `maxResumeAttempts` — the call returns false
immediately, schedules nothing, does not increment the counter, and
leaves the engine state completely unchanged. -/
theorem resume_guard_noop (s : P5.EngineState) (resumeOk : Bool)
    (h : s.ctx = none ∨ s.ctx ≠ some P5.CtxState.suspended ∨
      P5.maxResumeAttempts ≤ s.resumeAttempts) :
    P5.attemptResumeAudio resumeOk s = (P5.AttemptOutcome.returnedFalse, s) := by
  unfold P5.attemptResumeAudio
  rw [if_pos h]

/-- C10 witness: the guard fact applied to a state whose counter is at
the maximum while the context is suspended. -/
theorem resume_guard_noop_witness :
    ({ P5.suspendedState with resumeAttempts := 5 }.ctx = none ∨
      { P5.suspendedState with resumeAttempts := 5 }.ctx ≠
        some P5.CtxState.suspended ∨
      P5.maxResumeAttempts ≤
        { P5.suspendedState with resumeAttempts := 5 }.resumeAttempts) ∧
    P5.attemptResumeAudio true { P5.suspendedState with resumeAttempts := 5 } =
      (P5.AttemptOutcome.returnedFalse,
        { P5.suspendedState with resumeAttempts := 5 }) :=
  ⟨Or.inr (Or.inr (by decide)),
   resume_guard_noop { P5.suspendedState with resumeAttempts := 5 } true
     (Or.inr (Or.inr (by decide)))⟩

/-- C3 witness: idempotence and idleness of `stop` at the
never-started constructor state. -/
theorem stop_idempotent_idle_witness :
    P5.stop (P5.stop P5.initState) = P5.stop P5.initState ∧
    (P5.stop P5.initState).isAudioRunning = false ∧
    (P5.stop P5.initState).ctx = none ∧
    (P5.stop P5.initState).nodes = false ∧
    (P5.stop P5.initState).edges = [] ∧
    P5.closeIsCalled (P5.stop P5.initState) = false ∧
    P5.closeIsCalled P5.initState = false :=
  stop_idempotent_idle P5.initState

/-- C5 witness: the amended latency-mode rule at the default config
`{delayTime: 50, inputGain: 1, noiseReduction: 50,
useZeroLatencyMode: true}`. -/
theorem latencyMode_rule_witness :
    (P6.selectLatencyMode (P6.Config.mk 50 1 50 true) = P6.Mode.direct ↔
      ((P6.Config.mk 50 1 50 true).useZeroLatencyMode = true ∧
        (P6.Config.mk 50 1 50 true).delayTime ≤ 5)) ∧
    (P6.Edge.mk P6.GNode.source P6.GNode.inputGain 0 0 ∈
        P6.connectAudioNodes (P6.Config.mk 50 1 50 true) ↔
      ¬ ((P6.Config.mk 50 1 50 true).delayTime < 20 ∨
        ((P6.Config.mk 50 1 50 true).noiseReduction = 0 ∧
          (P6.Config.mk 50 1 50 true).inputGain = 1))) ∧
    (P6.Edge.mk P6.GNode.noiseGate P6.GNode.compressor 0 0 ∈
        P6.connectAudioNodes (P6.Config.mk 50 1 50 true) ↔
      (¬ ((P6.Config.mk 50 1 50 true).delayTime < 20 ∨
        ((P6.Config.mk 50 1 50 true).noiseReduction = 0 ∧
          (P6.Config.mk 50 1 50 true).inputGain = 1)) ∧
        0 < (P6.Config.mk 50 1 50 true).noiseReduction)) :=
  latencyMode_rule (P6.Config.mk 50 1 50 true)

/-- C7 witness: the stereo fan-out connections at the default
`src/daf-processor.js` config. -/
theorem stereo_fanout_witness :
    DafProc.Edge.mk DafProc.GNode.channelSplitter DafProc.GNode.channelMerger
        0 0 ∈ DafProc.connectAudioNodes (DafProc.Config.mk 50 1 50) ∧
    DafProc.Edge.mk DafProc.GNode.channelSplitter DafProc.GNode.channelMerger
        0 1 ∈ DafProc.connectAudioNodes (DafProc.Config.mk 50 1 50) ∧
    P5.Edge.mk P5.GNode.channelSplitter P5.GNode.channelMerger 0 0 ∈
      P5.connectAudioNodes ∧
    P5.Edge.mk P5.GNode.channelSplitter P5.GNode.channelMerger 0 1 ∈
      P5.connectAudioNodes :=
  stereo_fanout (DafProc.Config.mk 50 1 50)
